import Mathlib

/-!
Shallow embedding of the two source files of this repository:

* `src/tools/ld-disc-stacker/stacker.cpp` (class `Stacker`)
* `src/tools/ld-chroma-decoder/paldecoder.cpp` (classes `PalDecoder`, `PalThread`)

Modelling conventions:

* `quint16` sample values are modelled as `Nat`; `qint32` quantities that can
  go negative (geometry columns, dropout line numbers) are modelled as `Int`.
* C++ `double` computations are modelled as exact rationals (`ℚ`).  Every
  `double` expression appearing in the sources is built from integers up to
  131070 by one addition, one division by 2 or 100, one multiplication by 10
  and one subtraction, so the real computations either are exact in binary64
  or differ from the exact rational value by less than `2^-40`, far from the
  integer boundaries exercised by the theorems below.
* `std::nth_element` is determinized by its specification: any array state in
  which positions up to the requested one hold the corresponding order
  statistics is permitted by the C++ standard, and full ascending order is
  such a state; the embedding therefore reads the needed positions from the
  sorted list.
* The external pools (`StackingPool`, `DecoderPool`) and the `DropOuts`
  container class live outside the two source files; the spec describes their
  contract in §6, and the worker-loop model below takes them as parameters.
-/

namespace VhsDecode

/-- One record of a `DropOuts` container: an inclusive column range
`startx..endx` on scan line `fieldLine` (1-based when stored). -/
structure DropOut where
  startx : Int
  endx : Int
  fieldLine : Int
deriving DecidableEq, Repr

/-- The fields of `LdDecodeMetaData::VideoParameters` used by the two source
files.  All are `qint32` in C++ except the PAL flag. -/
structure VideoParameters where
  fieldWidth : Int
  fieldHeight : Int
  colourBurstStart : Int
  activeVideoStart : Int
  activeVideoEnd : Int
  isSourcePal : Bool
deriving DecidableEq, Repr

namespace Stacker

/-- `Stacker::median` (stacker.cpp lines 149-173).  The two `std::nth_element`
calls are determinized by reading the sorted list (see the file comment); the
even branch's `(a + b) / 2.0` followed by the `quint16` cast truncates the
exact half-integer mean toward zero, which on `Nat` is floor division by 2. -/
def median (elements : List Nat) : Nat :=
  let s := List.insertionSort (· ≤ ·) elements
  let noOfElements := elements.length
  if noOfElements % 2 == 0 then
    (s.getD ((noOfElements - 1) / 2) 0 + s.getD (noOfElements / 2) 0) / 2
  else
    s.getD (noOfElements / 2) 0

/-- `Stacker::isDropout` (stacker.cpp lines 176-186): linear scan of the
dropout records, matching `fieldLine - 1 == fieldY` and
`startx <= fieldX <= endx`. -/
def isDropout (dropOuts : List DropOut) (fieldX fieldY : Int) : Bool :=
  dropOuts.any fun d =>
    d.fieldLine - 1 == fieldY && fieldX >= d.startx && fieldX <= d.endx

/-- Lines 210-221 of stacker.cpp, lower bound: `minValueD = medianValue -
((medianValue / 100.0) * threshold)` with `threshold = 10`, clamped below at
0, then converted to `quint16` (truncation toward zero = `Nat.floor` on the
clamped, non-negative value). -/
def diffDodMin (medianValue : Nat) : Nat :=
  let m : ℚ := (medianValue : ℚ)
  let threshold : ℚ := 10
  let minValueD0 : ℚ := m - ((m / 100) * threshold)
  let minValueD : ℚ := if minValueD0 < 0 then 0 else minValueD0
  ⌊minValueD⌋₊

/-- Lines 210-221 of stacker.cpp, upper bound: `maxValueD = medianValue +
((medianValue / 100.0) * threshold)` with `threshold = 10`, clamped above at
65535, then converted to `quint16`. -/
def diffDodMax (medianValue : Nat) : Nat :=
  let m : ℚ := (medianValue : ℚ)
  let threshold : ℚ := 10
  let maxValueD0 : ℚ := m + ((m / 100) * threshold)
  let maxValueD : ℚ := if maxValueD0 > 65535 then 65535 else maxValueD0
  ⌊maxValueD⌋₊

/-- `Stacker::diffDod` (stacker.cpp lines 193-239): require at least 3 values
and a column at or right of the colour-burst start, then keep exactly the
values strictly between the two band bounds. -/
def diffDod (inputValues : List Nat) (videoParameters : VideoParameters)
    (xPos : Int) : List Nat :=
  if inputValues.length < 3 then []
  else if xPos < videoParameters.colourBurstStart then []
  else
    let minValue : Nat := diffDodMin (median inputValues)
    let maxValue : Nat := diffDodMax (median inputValues)
    inputValues.filter fun v => decide (minValue < v) && decide (v < maxValue)

/-- Line 136-137 of stacker.cpp: `avg = (double(a) + double(b)) / 2.0` stored
through a `quint16` cast (truncation toward zero of a non-negative value). -/
def stackAvg (a b : Nat) : Nat :=
  ⌊(((a : ℚ) + (b : ℚ)) / 2)⌋₊

/-- Lines 86-94 of stacker.cpp: one pixel's valid sample values, in source
order, from the available sources whose dropout metadata does not cover the
pixel.  `inputFields` and `fieldMetadata` are indexed by source number. -/
def pixelInputValues (inputFields : List (List Nat))
    (fieldMetadata : List (List DropOut)) (availableSourcesForFrame : List Nat)
    (videoParameters : VideoParameters) (x y : Nat) : List Nat :=
  (availableSourcesForFrame.filter fun i =>
      !isDropout (fieldMetadata.getD i []) (x : Int) (y : Int)).map fun i =>
    (inputFields.getD i []).getD (videoParameters.fieldWidth.toNat * y + x) 0

/-- Lines 102-107 of stacker.cpp: every available source's raw sample at the
pixel whose value is non-zero (dropout-marked pixels re-admitted). -/
def pixelRawValues (inputFields : List (List Nat))
    (availableSourcesForFrame : List Nat)
    (videoParameters : VideoParameters) (x y : Nat) : List Nat :=
  (availableSourcesForFrame.map fun i =>
      (inputFields.getD i []).getD (videoParameters.fieldWidth.toNat * y + x) 0).filter
    fun pixelValue => decide (0 < pixelValue)

/-- The guard of line 98 of stacker.cpp:
`(inputValues.size() <= 3) && (availableSourcesForFrame.size() > 3) && (noDiffDod == false)`. -/
def rescueCondition (validCount availableSourceCount : Nat)
    (noDiffDod : Bool) : Bool :=
  decide (validCount ≤ 3) && decide (3 < availableSourceCount) && (noDiffDod == false)

/-- Lines 86-111 of stacker.cpp: the working value set of one pixel — the
valid samples, replaced by the differential-dropout-rescued raw samples when
the guard of line 98 holds. -/
def pixelWorkingSet (inputFields : List (List Nat))
    (fieldMetadata : List (List DropOut)) (availableSourcesForFrame : List Nat)
    (noDiffDod : Bool) (videoParameters : VideoParameters) (x y : Nat) :
    List Nat :=
  let inputValues :=
    pixelInputValues inputFields fieldMetadata availableSourcesForFrame
      videoParameters x y
  if rescueCondition inputValues.length availableSourcesForFrame.length
      noDiffDod then
    diffDod (pixelRawValues inputFields availableSourcesForFrame
        videoParameters x y)
      videoParameters (x : Int)
  else
    inputValues

/-- The scan state of `Stacker::stackField`: the running `prevGoodValue`, the
output samples written so far (the scan writes index `fieldWidth * y + x`
exactly once, in scan order, so the output field is the append order) and the
dropout records appended so far. -/
structure StackState where
  prevGoodValue : Nat
  out : List Nat
  dropOuts : List DropOut
deriving DecidableEq, Repr

/-- Lines 113-140 of stacker.cpp: fuse one pixel's working value set into the
output sample, update `prevGoodValue`, and append a dropout record `(x, x,
y + 1)` for an empty set outside the sync region. -/
def stackPixel (videoParameters : VideoParameters) (inputValues : List Nat)
    (x y : Nat) (st : StackState) : StackState :=
  if 2 < inputValues.length then
    let m := median inputValues
    { prevGoodValue := m, out := st.out ++ [m], dropOuts := st.dropOuts }
  else if inputValues.length = 0 then
    { prevGoodValue := st.prevGoodValue,
      out := st.out ++ [st.prevGoodValue],
      dropOuts := st.dropOuts ++
        if videoParameters.colourBurstStart < (x : Int) then
          [⟨(x : Int), (x : Int), (y : Int) + 1⟩]
        else [] }
  else if inputValues.length = 1 then
    let v := inputValues.getD 0 0
    { prevGoodValue := v, out := st.out ++ [v], dropOuts := st.dropOuts }
  else
    let avg := stackAvg (inputValues.getD 0 0) (inputValues.getD 1 0)
    { prevGoodValue := avg, out := st.out ++ [avg], dropOuts := st.dropOuts }

/-- The scan order of lines 84-85 of stacker.cpp: `y` outer from 0 to
`fieldHeight - 1`, `x` inner from 0 to `fieldWidth - 1`. -/
def scanCoords (videoParameters : VideoParameters) : List (Nat × Nat) :=
  (List.range videoParameters.fieldHeight.toNat).flatMap fun y =>
    (List.range videoParameters.fieldWidth.toNat).map fun x => (x, y)

/-- `Stacker::stackField` (stacker.cpp lines 74-146) up to the final
`DropOuts::concatenate` pass (whose merge code lives outside the two source
files): scan every pixel with `prevGoodValue` initialised to 0. -/
def stackField (inputFields : List (List Nat))
    (fieldMetadata : List (List DropOut)) (availableSourcesForFrame : List Nat)
    (noDiffDod : Bool) (videoParameters : VideoParameters) : StackState :=
  (scanCoords videoParameters).foldl
    (fun st xy =>
      stackPixel videoParameters
        (pixelWorkingSet inputFields fieldMetadata availableSourcesForFrame
          noDiffDod videoParameters xy.1 xy.2)
        xy.1 xy.2 st)
    ⟨0, [], []⟩

/-- Modelled from the spec (§6): the `StackingPool` collaborator, whose code
is outside the two source files, hands each worker a finite sequence of work
units via `getInputFrame` (returning false once exhausted) and reports
per-unit success of `setOutputFrame`.  The unit payloads do not influence the
control flow of `Stacker::run`, so they are abstracted to `Nat`;
`submitOk u` is the Boolean result of `setOutputFrame` for unit `u`. -/
def run (abort : Bool) (inputs : List Nat) (submitOk : Nat → Bool) :
    Bool × Nat :=
  if abort then (abort, 0)
  else
    match inputs with
    | [] => (abort, 0)
    | u :: rest =>
      -- Lines 66-69 of stacker.cpp: the Boolean result of
      -- `stackingPool.setOutputFrame(...)` is discarded.
      let _ := submitOk u
      let r := run abort rest submitOk
      (r.1, r.2 + 1)

end Stacker

namespace Pal

/-- `PalDecoder::Configuration` (paldecoder.h): the video parameters after
geometry normalisation plus the derived frame geometry. -/
structure Configuration where
  videoParameters : VideoParameters
  frameHeight : Int
  firstActiveScanLine : Int
  lastActiveScanLine : Int
deriving DecidableEq, Repr

/-- The `while (true)` loop of paldecoder.cpp lines 56-69: grow the active
column band by one sample per iteration — right edge when the current width is
even, left edge when odd — until the width is a multiple of 16.  The C++ `%`
is truncated remainder; both its `== 0` tests agree with `Int.emod`'s, which
is used here.  Returns the final band and the iteration count. -/
def expandActiveWidth (activeVideoStart activeVideoEnd : Int) :
    Int × Int × Nat :=
  if (activeVideoEnd - activeVideoStart) % 16 = 0 then
    (activeVideoStart, activeVideoEnd, 0)
  else if (activeVideoEnd - activeVideoStart) % 2 = 0 then
    let r := expandActiveWidth activeVideoStart (activeVideoEnd + 1)
    (r.1, r.2.1, r.2.2 + 1)
  else
    let r := expandActiveWidth (activeVideoStart - 1) activeVideoEnd
    (r.1, r.2.1, r.2.2 + 1)
termination_by ((-(activeVideoEnd - activeVideoStart)) % 16).toNat
decreasing_by
  all_goals simp_wf
  all_goals omega

/-- `PalDecoder::configure` (paldecoder.cpp lines 35-78): reject non-PAL
sources, derive the frame height, fix the default active scan-line band to
44..620 (decrementing the end if the line count were odd), and expand the
active column band to a multiple-of-16 width. -/
def configure (videoParameters : VideoParameters) : Option Configuration :=
  if videoParameters.isSourcePal = false then none
  else
    let frameHeight := videoParameters.fieldHeight * 2 - 1
    let firstActiveScanLine : Int := 44
    let lastActiveScanLine0 : Int := 620
    let lastActiveScanLine : Int :=
      if (lastActiveScanLine0 - firstActiveScanLine) % 2 ≠ 0 then
        lastActiveScanLine0 - 1
      else lastActiveScanLine0
    let r := expandActiveWidth videoParameters.activeVideoStart
        videoParameters.activeVideoEnd
    some
      { videoParameters :=
          { videoParameters with activeVideoStart := r.1, activeVideoEnd := r.2.1 },
        frameHeight := frameHeight,
        firstActiveScanLine := firstActiveScanLine,
        lastActiveScanLine := lastActiveScanLine }

/-- `QByteArray::mid(pos, len)` for the in-range, non-negative arguments used
by `PalThread::run`: the slice is truncated at the end of the buffer. -/
def mid (buf : List Nat) (pos len : Nat) : List Nat :=
  (buf.drop pos).take len

/-- Lines 129-146 of paldecoder.cpp: build `rgbOutputData` from the
whole-frame decoder buffer `outputData` (a flat byte list, 6 bytes per
pixel): first `576 - (lastActiveScanLine - firstActiveScanLine)` zero-filled
blank lines, then for each in-band scan line the active column span. -/
def postprocessFrame (config : Configuration) (outputData : List Nat) :
    List Nat :=
  let activeVideoStart := config.videoParameters.activeVideoStart.toNat
  let activeVideoEnd := config.videoParameters.activeVideoEnd.toNat
  let fieldWidth := config.videoParameters.fieldWidth.toNat
  let lineBytes := (activeVideoEnd - activeVideoStart) * 6
  let blankLine : List Nat := List.replicate lineBytes 0
  let blankCount :=
    (576 - (config.lastActiveScanLine - config.firstActiveScanLine)).toNat
  let firstActive := config.firstActiveScanLine.toNat
  let lastActive := config.lastActiveScanLine.toNat
  let withBlanks :=
    (List.range blankCount).foldl (fun acc _ => acc ++ blankLine) []
  (List.range (lastActive - firstActive)).foldl
    (fun acc i =>
      acc ++ mid outputData
        (((firstActive + i) * fieldWidth + activeVideoStart) * 6) lineBytes)
    withBlanks

/-- Modelled from the spec (§6): the `DecoderPool` collaborator, whose code is
outside the two source files, hands each worker a finite sequence of frames
via `getInputFrame` (returning false once exhausted) and reports per-frame
success of `putOutputFrame`.  Frame payloads do not influence the control
flow of `PalThread::run` and are abstracted to `Nat`.  Lines 149-152 of
paldecoder.cpp: a failed `putOutputFrame` sets `abort = true` and breaks. -/
def threadRun (abort : Bool) (inputs : List Nat) (putOutputFrame : Nat → Bool) :
    Bool × Nat :=
  if abort then (abort, 0)
  else
    match inputs with
    | [] => (abort, 0)
    | u :: rest =>
      if putOutputFrame u then
        let r := threadRun abort rest putOutputFrame
        (r.1, r.2 + 1)
      else (true, 1)

end Pal

namespace Stacker

/-- Spec-side median for claim C4, following the spec's words: the
order-statistic median — the exact middle order statistic for odd-length
sets, the arithmetic mean of the two central order statistics (an exact
rational) for even-length sets. -/
def medianSpecQ (elements : List Nat) : ℚ :=
  let s := List.insertionSort (· ≤ ·) elements
  let n := elements.length
  if n % 2 == 0 then
    ((s.getD ((n - 1) / 2) 0 : ℚ) + (s.getD (n / 2) 0 : ℚ)) / 2
  else
    (s.getD (n / 2) 0 : ℚ)

/-- Spec-side differential dropout rescue for claim C3, following the spec's
words: the acceptance band is median ± 10 % of the median clamped to
`[0, 65535]`, and the result is exactly the input values strictly inside the
open interval of that (un-truncated) band. -/
def diffDodSpec (inputValues : List Nat) (videoParameters : VideoParameters)
    (xPos : Int) : List Nat :=
  if inputValues.length < 3 then []
  else if xPos < videoParameters.colourBurstStart then []
  else
    let m : ℚ := (median inputValues : ℚ)
    let minValue : ℚ := max (m - (m / 100) * 10) 0
    let maxValue : ℚ := min (m + (m / 100) * 10) 65535
    inputValues.filter fun v =>
      decide (minValue < (v : ℚ)) && decide ((v : ℚ) < maxValue)

end Stacker

/-! ## Bridge lemmas between the rational (`double`) computations and the
integer arithmetic they implement -/

namespace Stacker

lemma diffDodMin_eq (m : Nat) : diffDodMin m = 9 * m / 10 := by
  have key : ((m : ℚ) - ((m : ℚ) / 100) * 10) = ((9 * m : ℕ) : ℚ) / ((10 : ℕ) : ℚ) := by
    push_cast
    ring
  have hnn : ¬((m : ℚ) - ((m : ℚ) / 100) * 10 < 0) := by
    rw [not_lt, key]
    positivity
  simp only [diffDodMin]
  rw [if_neg hnn, key, Nat.floor_div_nat, Nat.floor_natCast]

lemma diffDodMax_eq (m : Nat) : diffDodMax m = min (11 * m / 10) 65535 := by
  have key : ((m : ℚ) + ((m : ℚ) / 100) * 10) = ((11 * m : ℕ) : ℚ) / ((10 : ℕ) : ℚ) := by
    push_cast
    ring
  simp only [diffDodMax]
  rw [key]
  by_cases hc : ((11 * m : ℕ) : ℚ) / ((10 : ℕ) : ℚ) > 65535
  · rw [if_pos hc]
    have h1 : (655350 : ℚ) < ((11 * m : ℕ) : ℚ) := by
      rw [gt_iff_lt, lt_div_iff₀ (by norm_num : (0 : ℚ) < ((10 : ℕ) : ℚ))] at hc
      push_cast at hc ⊢
      linarith
    have h2 : 655350 < 11 * m := by exact_mod_cast h1
    have h3 : 65535 ≤ 11 * m / 10 := by omega
    rw [min_eq_right h3]
    norm_num
  · rw [if_neg hc, Nat.floor_div_nat, Nat.floor_natCast]
    have h1 : ((11 * m : ℕ) : ℚ) ≤ 655350 := by
      rw [gt_iff_lt, not_lt, div_le_iff₀ (by norm_num : (0 : ℚ) < ((10 : ℕ) : ℚ))] at hc
      push_cast at hc ⊢
      linarith
    have h2 : 11 * m ≤ 655350 := by exact_mod_cast h1
    have h3 : 11 * m / 10 ≤ 65535 := by omega
    rw [min_eq_left h3]

lemma stackAvg_eq (a b : Nat) : stackAvg a b = (a + b) / 2 := by
  have key : ((a : ℚ) + (b : ℚ)) = ((a + b : ℕ) : ℚ) := by push_cast; ring
  simp only [stackAvg]
  rw [key, show (2 : ℚ) = ((2 : ℕ) : ℚ) by norm_num, Nat.floor_div_nat,
    Nat.floor_natCast]

/-- `pixelWorkingSet` unfolded: rescue replaces the valid set exactly when the
line-98 guard holds. -/
lemma pixelWorkingSet_eq (inputFields : List (List Nat))
    (fieldMetadata : List (List DropOut)) (availableSourcesForFrame : List Nat)
    (noDiffDod : Bool) (videoParameters : VideoParameters) (x y : Nat) :
    pixelWorkingSet inputFields fieldMetadata availableSourcesForFrame
        noDiffDod videoParameters x y =
      if rescueCondition
          (pixelInputValues inputFields fieldMetadata availableSourcesForFrame
            videoParameters x y).length
          availableSourcesForFrame.length noDiffDod then
        diffDod
          (pixelRawValues inputFields availableSourcesForFrame videoParameters
            x y)
          videoParameters (x : Int)
      else
        pixelInputValues inputFields fieldMetadata availableSourcesForFrame
          videoParameters x y := rfl

end Stacker

/-! ## Claim theorems -/

/-- **C6** (confirmed): for every defect interval set, in any order, merged or
not, and every pixel coordinate `(x, y)`, `isDropout` returns true iff some
interval of the set has `lineNumber - 1 = y` and
`startColumn ≤ x ≤ endColumn`. -/
theorem c6_theorem (dropOuts : List DropOut) (x y : Int) :
    Stacker.isDropout dropOuts x y = true ↔
      ∃ d ∈ dropOuts, d.fieldLine - 1 = y ∧ d.startx ≤ x ∧ x ≤ d.endx := by
  simp [Stacker.isDropout, List.any_eq_true, Bool.and_eq_true, beq_iff_eq,
    decide_eq_true_eq, ge_iff_le, and_assoc]

/-- **C7** (confirmed): for a size-2 value set `{a, b}` of 16-bit samples, the
fused output sample is the floating-point mean truncated toward zero, which
equals `(a + b) / 2` in integer floor division; it also becomes the new
previous good value, and no dropout is recorded. -/
theorem c7_theorem (a b : Nat) (videoParameters : VideoParameters)
    (x y : Nat) (st : Stacker.StackState) (ha : a ≤ 65535) (hb : b ≤ 65535) :
    Stacker.stackPixel videoParameters [a, b] x y st =
      { prevGoodValue := (a + b) / 2, out := st.out ++ [(a + b) / 2],
        dropOuts := st.dropOuts } := by
  simp [Stacker.stackPixel, Stacker.stackAvg_eq, List.getD]

/-- Witness for C7: `{3, 4} → 3`. -/
theorem c7_witness :
    Stacker.stackPixel ⟨1, 1, 0, 0, 1, true⟩ [3, 4] 0 0 ⟨0, [], []⟩ =
      { prevGoodValue := 3, out := [3], dropOuts := [] } :=
  c7_theorem 3 4 ⟨1, 1, 0, 0, 1, true⟩ 0 0 ⟨0, [], []⟩ (by decide) (by decide)

/-- **C4** counterexample: the claim states that for sets of size > 2 the
fused output equals the order-statistic median including the even-length
mean-of-central-pair rule; at `[10, 21, 30, 40]` the code's output is 25
while the mean of the central pair is 51/2, so the claim as stated is false. -/
theorem c4_counterexample :
    ¬ (∀ elements : List Nat, 2 < elements.length →
        (Stacker.median elements : ℚ) = Stacker.medianSpecQ elements) := by
  intro h
  have h1 := h [10, 21, 30, 40] (by decide)
  have hm : Stacker.median [10, 21, 30, 40] = 25 := by decide
  have hs : List.insertionSort (· ≤ ·) [10, 21, 30, 40] = [10, 21, 30, 40] := by
    decide
  rw [hm] at h1
  simp only [Stacker.medianSpecQ, hs] at h1
  norm_num at h1

/-- **C4** (corrected): for every value set of size > 2 the fused output
sample is the order-statistic median truncated to an integer — the exact
middle order statistic for odd length, the floor of the mean of the two
central order statistics for even length — and it becomes the new previous
good value with no dropout recorded. -/
theorem c4_theorem (elements : List Nat) (h : 2 < elements.length) :
    Stacker.median elements = ⌊Stacker.medianSpecQ elements⌋₊ ∧
    ∀ (videoParameters : VideoParameters) (x y : Nat)
      (st : Stacker.StackState),
      Stacker.stackPixel videoParameters elements x y st =
        { prevGoodValue := Stacker.median elements,
          out := st.out ++ [Stacker.median elements],
          dropOuts := st.dropOuts } := by
  constructor
  · simp only [Stacker.median, Stacker.medianSpecQ]
    by_cases hpar : elements.length % 2 == 0
    · simp only [hpar, if_pos]
      rw [show ((2 : ℚ)) = ((2 : ℕ) : ℚ) by norm_num]
      rw [show ((List.insertionSort (· ≤ ·) elements).getD
            ((elements.length - 1) / 2) 0 : ℚ) +
          ((List.insertionSort (· ≤ ·) elements).getD (elements.length / 2) 0 :
            ℚ) =
          (((List.insertionSort (· ≤ ·) elements).getD
              ((elements.length - 1) / 2) 0 +
            (List.insertionSort (· ≤ ·) elements).getD (elements.length / 2) 0 :
            ℕ) : ℚ) by push_cast; ring]
      rw [Nat.floor_div_nat, Nat.floor_natCast]
    · simp only [hpar, if_neg, Nat.floor_natCast]
      simp
  · intro vp x y st
    simp only [Stacker.stackPixel, if_pos h]

/-- Witness for C4: `{10, 20, 30} → 20`. -/
theorem c4_witness :
    Stacker.median [10, 20, 30] = ⌊Stacker.medianSpecQ [10, 20, 30]⌋₊ ∧
    Stacker.stackPixel ⟨1, 1, 0, 0, 1, true⟩ [10, 20, 30] 0 0 ⟨0, [], []⟩ =
      { prevGoodValue := 20, out := [20], dropOuts := [] } :=
  ⟨(c4_theorem [10, 20, 30] (by decide)).1,
   (c4_theorem [10, 20, 30] (by decide)).2 ⟨1, 1, 0, 0, 1, true⟩ 0 0 ⟨0, [], []⟩⟩

/-- **C3** counterexample: the claim describes the kept values as those
strictly inside the open interval of the band median ± 10 % clamped to
`[0, 65535]`.  At input `[100, 101, 111]` (median 101, band
`(90.9, 111.1)`) the code truncates the bounds to `90` and `111` before the
strict comparisons, so the value 111 — strictly inside the un-truncated
band — is rejected: the code returns `[100, 101]`, the claim's band keeps
`[100, 101, 111]`. -/
theorem c3_counterexample :
    Stacker.diffDod [100, 101, 111] ⟨1, 1, 0, 0, 1, true⟩ 0 = [100, 101] ∧
    Stacker.diffDodSpec [100, 101, 111] ⟨1, 1, 0, 0, 1, true⟩ 0 =
      [100, 101, 111] ∧
    ([100, 101] : List Nat) ≠ [100, 101, 111] := by
  refine ⟨?_, ?_, by decide⟩
  · have hm : Stacker.median [100, 101, 111] = 101 := by decide
    simp only [Stacker.diffDod, hm, Stacker.diffDodMin_eq,
      Stacker.diffDodMax_eq]
    decide
  · have hm : Stacker.median [100, 101, 111] = 101 := by decide
    simp only [Stacker.diffDodSpec, hm]
    norm_num [List.filter]

/-- **C3** (corrected): `diffDod` with at least 3 input values at a column at
or right of the colour-burst start returns exactly the input values strictly
between the band bounds *truncated to whole samples*: strictly above
`⌊median · 9/10⌋` and strictly below `min ⌊median · 11/10⌋ 65535`; with
fewer than 3 values, or a column left of the colour-burst start, it returns
the empty set. -/
theorem c3_theorem (inputValues : List Nat)
    (videoParameters : VideoParameters) (xPos : Int) :
    Stacker.diffDod inputValues videoParameters xPos =
      if 3 ≤ inputValues.length ∧ videoParameters.colourBurstStart ≤ xPos then
        inputValues.filter fun v =>
          decide (9 * Stacker.median inputValues / 10 < v) &&
          decide (v < min (11 * Stacker.median inputValues / 10) 65535)
      else [] := by
  simp only [Stacker.diffDod, Stacker.diffDodMin_eq, Stacker.diffDodMax_eq]
  by_cases h1 : inputValues.length < 3
  · rw [if_pos h1, if_neg (by omega)]
  · by_cases h2 : xPos < videoParameters.colourBurstStart
    · rw [if_neg h1, if_pos h2, if_neg (by omega)]
    · rw [if_neg h1, if_neg h2, if_pos (by omega)]

/-- **C2** counterexample: the claim's rescue-invocation condition requires
`0 < validCount`; line 98 of stacker.cpp tests only `validCount <= 3`, so the
rescue path also runs with zero valid samples.  Concretely, with 4 available
sources all dropout-flagged at the pixel (valid set empty) and raw values
`[100, 101, 102, 9000]`, the code invokes the rescue and obtains the working
set `[100, 101, 102]`, where the claim says rescue is never invoked. -/
theorem c2_counterexample :
    ¬ (∀ (validCount availableSourceCount : Nat) (noDiffDod : Bool),
        Stacker.rescueCondition validCount availableSourceCount noDiffDod = true ↔
          (0 < validCount ∧ validCount ≤ 3 ∧ 3 < availableSourceCount ∧
            noDiffDod = false)) ∧
    Stacker.pixelInputValues [[100], [101], [102], [9000]]
        [[⟨0, 0, 1⟩], [⟨0, 0, 1⟩], [⟨0, 0, 1⟩], [⟨0, 0, 1⟩]] [0, 1, 2, 3]
        ⟨1, 1, 0, 0, 1, true⟩ 0 0 = [] ∧
    Stacker.pixelWorkingSet [[100], [101], [102], [9000]]
        [[⟨0, 0, 1⟩], [⟨0, 0, 1⟩], [⟨0, 0, 1⟩], [⟨0, 0, 1⟩]] [0, 1, 2, 3]
        false ⟨1, 1, 0, 0, 1, true⟩ 0 0 = [100, 101, 102] := by
  refine ⟨fun h => absurd ((h 0 4 false).mp (by decide)).1 (by decide), by decide, ?_⟩
  rw [Stacker.pixelWorkingSet_eq]
  rw [if_pos (by decide :
    Stacker.rescueCondition
      (Stacker.pixelInputValues [[100], [101], [102], [9000]]
        [[⟨0, 0, 1⟩], [⟨0, 0, 1⟩], [⟨0, 0, 1⟩], [⟨0, 0, 1⟩]] [0, 1, 2, 3]
        ⟨1, 1, 0, 0, 1, true⟩ 0 0).length
      ([0, 1, 2, 3] : List Nat).length false = true)]
  rw [show Stacker.pixelRawValues [[100], [101], [102], [9000]] [0, 1, 2, 3]
      ⟨1, 1, 0, 0, 1, true⟩ 0 0 = [100, 101, 102, 9000] from by decide]
  have hm : Stacker.median [100, 101, 102, 9000] = 101 := by decide
  simp only [Stacker.diffDod, hm, Stacker.diffDodMin_eq, Stacker.diffDodMax_eq]
  decide

/-- **C2** (corrected): the Differential Dropout Rescue path is invoked iff
`validCount ≤ 3 ∧ availableSourceCount > 3 ∧ noDiffDod = false` — the lower
bound `0 < validCount` of the claim is not required; when the condition fails
the working set is the plain valid set, and when it holds the working set is
`diffDod` of the non-zero raw samples. -/
theorem c2_theorem :
    (∀ (validCount availableSourceCount : Nat) (noDiffDod : Bool),
       Stacker.rescueCondition validCount availableSourceCount noDiffDod = true ↔
         (validCount ≤ 3 ∧ 3 < availableSourceCount ∧ noDiffDod = false)) ∧
    (∀ (inputFields : List (List Nat)) (fieldMetadata : List (List DropOut))
       (availableSourcesForFrame : List Nat) (noDiffDod : Bool)
       (videoParameters : VideoParameters) (x y : Nat),
       (Stacker.rescueCondition
           (Stacker.pixelInputValues inputFields fieldMetadata
             availableSourcesForFrame videoParameters x y).length
           availableSourcesForFrame.length noDiffDod = false →
         Stacker.pixelWorkingSet inputFields fieldMetadata
             availableSourcesForFrame noDiffDod videoParameters x y =
           Stacker.pixelInputValues inputFields fieldMetadata
             availableSourcesForFrame videoParameters x y) ∧
       (Stacker.rescueCondition
           (Stacker.pixelInputValues inputFields fieldMetadata
             availableSourcesForFrame videoParameters x y).length
           availableSourcesForFrame.length noDiffDod = true →
         Stacker.pixelWorkingSet inputFields fieldMetadata
             availableSourcesForFrame noDiffDod videoParameters x y =
           Stacker.diffDod
             (Stacker.pixelRawValues inputFields availableSourcesForFrame
               videoParameters x y)
             videoParameters (x : Int))) := by
  constructor
  · intro v a nd
    simp [Stacker.rescueCondition, Bool.and_eq_true, decide_eq_true_eq,
      beq_iff_eq, and_assoc]
  · intro F M A nd p x y
    constructor
    · intro hcond
      rw [Stacker.pixelWorkingSet_eq, hcond]
      simp
    · intro hcond
      rw [Stacker.pixelWorkingSet_eq, hcond]
      simp

/-- Witness for C2. -/
theorem c2_witness :
    Stacker.rescueCondition 2 4 false = true ∧
    Stacker.pixelWorkingSet [[5]] [[]] [0] false ⟨1, 1, 0, 0, 1, true⟩ 0 0 =
      Stacker.pixelInputValues [[5]] [[]] [0] ⟨1, 1, 0, 0, 1, true⟩ 0 0 :=
  ⟨(c2_theorem.1 2 4 false).mpr (by decide),
   (c2_theorem.2 [[5]] [[]] [0] false ⟨1, 1, 0, 0, 1, true⟩ 0 0).1 (by decide)⟩


/-- **C1** counterexample: the claim states that *every* worker (both the
field-stacking worker and the PAL colour-decode worker) reacts to a failed
result submission by setting the shared cancellation flag and stopping.
`Stacker::run` (stacker.cpp line 67) discards `setOutputFrame`'s Boolean
result: with two work units whose submissions both fail, the stacking worker
still claims both units and finishes with the flag clear, instead of the
claimed `(true, 1)`. -/
theorem c1_counterexample :
    ¬ (∀ (xs : List Nat) (u : Nat) (ys : List Nat) (submitOk : Nat → Bool),
        (∀ v ∈ xs, submitOk v = true) → submitOk u = false →
        Stacker.run false (xs ++ u :: ys) submitOk = (true, xs.length + 1)) := by
  intro h
  have h1 := h [] 0 [1] (fun _ => false) (by intro v hv; cases hv) rfl
  simp only [List.nil_append, List.length_nil] at h1
  have h2 : Stacker.run false [0, 1] (fun _ => false) = (false, 2) := rfl
  rw [h2] at h1
  simp at h1

/-- **C1** (corrected): the PAL colour-decode worker sets the shared
cancellation flag and transitions to Stopped without claiming further work as
soon as a submission fails; the field-stacking worker ignores the submission
result — it never sets the flag and claims every remaining unit of work. -/
theorem c1_theorem :
    (∀ (xs : List Nat) (u : Nat) (ys : List Nat) (putOutputFrame : Nat → Bool),
       (∀ v ∈ xs, putOutputFrame v = true) → putOutputFrame u = false →
       Pal.threadRun false (xs ++ u :: ys) putOutputFrame =
         (true, xs.length + 1)) ∧
    (∀ (inputs : List Nat) (submitOk : Nat → Bool),
       Stacker.run false inputs submitOk = (false, inputs.length)) := by
  constructor
  · intro xs
    induction xs with
    | nil =>
      intro u ys f _ hu
      simp [Pal.threadRun, hu]
    | cons a xs ih =>
      intro u ys f hall hu
      have ha : f a = true := hall a (by simp)
      simp only [List.cons_append, Pal.threadRun,
        if_neg (by simp : ¬(false = true)), ha, if_true, List.append_eq]
      rw [ih u ys f (fun v hv => hall v (by simp [hv])) hu]
      simp
  · intro inputs f
    induction inputs with
    | nil => rfl
    | cons u rest ih =>
      simp only [Stacker.run, ih]
      simp

/-- Witness for C1. -/
theorem c1_witness :
    Pal.threadRun false [7] (fun _ => false) = (true, 1) ∧
    Stacker.run false [1, 2] (fun _ => true) = (false, 2) :=
  ⟨c1_theorem.1 [] 7 [] (fun _ => false) (by intro v hv; cases hv) rfl,
   c1_theorem.2 [1, 2] (fun _ => true)⟩


namespace Stacker

/-- The empty-set branch of lines 122-128 of stacker.cpp. -/
lemma stackPixel_nil (videoParameters : VideoParameters) (x y : Nat)
    (st : StackState) :
    stackPixel videoParameters [] x y st =
      { prevGoodValue := st.prevGoodValue,
        out := st.out ++ [st.prevGoodValue],
        dropOuts := st.dropOuts ++
          if videoParameters.colourBurstStart < (x : Int) then
            [⟨(x : Int), (x : Int), (y : Int) + 1⟩]
          else [] } := by
  simp [stackPixel]

/-- Each pixel step appends exactly one output sample. -/
lemma stackPixel_out (videoParameters : VideoParameters)
    (inputValues : List Nat) (x y : Nat) (st : StackState) :
    ∃ v, (stackPixel videoParameters inputValues x y st).out = st.out ++ [v] := by
  unfold stackPixel
  split_ifs <;> exact ⟨_, rfl⟩

/-- A whole scan only ever appends to the output samples. -/
lemma stackScan_out (inputFields : List (List Nat))
    (fieldMetadata : List (List DropOut)) (availableSourcesForFrame : List Nat)
    (noDiffDod : Bool) (videoParameters : VideoParameters) :
    ∀ (l : List (Nat × Nat)) (st : StackState), ∃ t,
      (l.foldl
        (fun st xy =>
          stackPixel videoParameters
            (pixelWorkingSet inputFields fieldMetadata availableSourcesForFrame
              noDiffDod videoParameters xy.1 xy.2)
            xy.1 xy.2 st)
        st).out = st.out ++ t := by
  intro l
  induction l with
  | nil => exact fun st => ⟨[], by simp⟩
  | cons a l ih =>
    intro st
    obtain ⟨v, hv⟩ := stackPixel_out videoParameters
      (pixelWorkingSet inputFields fieldMetadata availableSourcesForFrame
        noDiffDod videoParameters a.1 a.2) a.1 a.2 st
    obtain ⟨t, ht⟩ := ih (stackPixel videoParameters
      (pixelWorkingSet inputFields fieldMetadata availableSourcesForFrame
        noDiffDod videoParameters a.1 a.2) a.1 a.2 st)
    exact ⟨v :: t, by simp [List.foldl_cons, ht, hv]⟩

end Stacker

/-- **C5** (confirmed): at a pixel whose (possibly rescued) value set is
empty, the output sample is the remembered previous good value and a dropout
record `(x, x, y + 1)` is appended exactly when the column is strictly right
of the colour-burst start (never at or before it); and the previous good
value is initialised to 0 at the start of each field, so a field whose first
pixel has an empty value set outputs 0 there. -/
theorem c5_theorem :
    (∀ (videoParameters : VideoParameters) (x y : Nat)
       (st : Stacker.StackState),
       Stacker.stackPixel videoParameters [] x y st =
         { prevGoodValue := st.prevGoodValue,
           out := st.out ++ [st.prevGoodValue],
           dropOuts := st.dropOuts ++
             if videoParameters.colourBurstStart < (x : Int) then
               [⟨(x : Int), (x : Int), (y : Int) + 1⟩]
             else [] }) ∧
    (∀ (inputFields : List (List Nat)) (fieldMetadata : List (List DropOut))
       (availableSourcesForFrame : List Nat) (noDiffDod : Bool)
       (videoParameters : VideoParameters),
       0 < videoParameters.fieldWidth.toNat →
       0 < videoParameters.fieldHeight.toNat →
       Stacker.pixelWorkingSet inputFields fieldMetadata
           availableSourcesForFrame noDiffDod videoParameters 0 0 = [] →
       (Stacker.stackField inputFields fieldMetadata availableSourcesForFrame
           noDiffDod videoParameters).out.head? = some 0) := by
  refine ⟨Stacker.stackPixel_nil, ?_⟩
  intro F M A nd p hw hh hempty
  obtain ⟨W, hW⟩ := Nat.exists_eq_succ_of_ne_zero (Nat.pos_iff_ne_zero.mp hw)
  obtain ⟨H, hH⟩ := Nat.exists_eq_succ_of_ne_zero (Nat.pos_iff_ne_zero.mp hh)
  have hcoords : ∃ rest, Stacker.scanCoords p = (0, 0) :: rest := by
    unfold Stacker.scanCoords
    rw [hW, hH, List.range_succ_eq_map, List.range_succ_eq_map,
      List.flatMap_cons, List.map_cons, List.cons_append]
    exact ⟨_, rfl⟩
  obtain ⟨rest, hr⟩ := hcoords
  unfold Stacker.stackField
  rw [hr, List.foldl_cons]
  rw [show Stacker.stackPixel p
      (Stacker.pixelWorkingSet F M A nd p (0, 0).1 (0, 0).2) (0, 0).1 (0, 0).2
      ⟨0, [], []⟩ =
    Stacker.stackPixel p [] 0 0 ⟨0, [], []⟩ from by rw [hempty]]
  rw [Stacker.stackPixel_nil]
  obtain ⟨t, ht⟩ := Stacker.stackScan_out F M A nd p rest _
  rw [ht]
  simp

/-- Witness for C5. -/
theorem c5_witness :
    Stacker.stackPixel ⟨1, 1, 2, 0, 1, true⟩ [] 3 0 ⟨5, [9], []⟩ =
      { prevGoodValue := 5, out := [9, 5], dropOuts := [⟨3, 3, 1⟩] } ∧
    (Stacker.stackField [] [] [] false ⟨1, 1, 0, 0, 1, true⟩).out.head? =
      some 0 :=
  ⟨c5_theorem.1 ⟨1, 1, 2, 0, 1, true⟩ 3 0 ⟨5, [9], []⟩,
   c5_theorem.2 [] [] [] false ⟨1, 1, 0, 0, 1, true⟩ (by decide) (by decide)
     (by decide)⟩

/-- **C8** (confirmed): for a PAL input whose active column width is already a
multiple of 16, `configure` succeeds and leaves the active column band (and
every other video parameter) unchanged; the active scan-line band it installs
is the fixed default 44..620, whose 576-line count is even, so the odd-count
decrement of line 53 of paldecoder.cpp does not fire. -/
theorem c8_theorem (videoParameters : VideoParameters)
    (hpal : videoParameters.isSourcePal = true)
    (hwidth : (16 : Int) ∣
      (videoParameters.activeVideoEnd - videoParameters.activeVideoStart)) :
    Pal.configure videoParameters =
      some { videoParameters := videoParameters,
             frameHeight := videoParameters.fieldHeight * 2 - 1,
             firstActiveScanLine := 44,
             lastActiveScanLine := 620 } := by
  obtain ⟨fw, fh, cbs, avs, ave, pal⟩ := videoParameters
  simp only at hpal hwidth
  subst hpal
  have hexp : Pal.expandActiveWidth avs ave = (avs, ave, 0) := by
    rw [Pal.expandActiveWidth]
    rw [if_pos (Int.emod_eq_zero_of_dvd hwidth)]
  unfold Pal.configure
  simp only [hexp]
  norm_num

/-- Witness for C8 (standard PAL geometry, width 16). -/
theorem c8_witness :
    Pal.configure ⟨922, 313, 98, 10, 26, true⟩ =
      some { videoParameters := ⟨922, 313, 98, 10, 26, true⟩,
             frameHeight := 625, firstActiveScanLine := 44,
             lastActiveScanLine := 620 } :=
  c8_theorem ⟨922, 313, 98, 10, 26, true⟩ rfl ⟨1, by decide⟩


/-- **C10** (confirmed): the active-width expansion loop of
`PalDecoder::configure` terminates for every initial geometry (the function
is total), widens the band by exactly one sample per iteration on one of the
two edges (left growth plus right growth equals the iteration count, with
both edges only moving outward), runs `(-(width)) mod 16 ≤ 15` iterations,
and exits with the active width equal to the least multiple of 16 that is
`≥` the initial width. -/
theorem c10_theorem (activeVideoStart activeVideoEnd : Int) :
    (Pal.expandActiveWidth activeVideoStart activeVideoEnd).2.1 -
        (Pal.expandActiveWidth activeVideoStart activeVideoEnd).1 =
      (activeVideoEnd - activeVideoStart) +
        (-(activeVideoEnd - activeVideoStart)) % 16 ∧
    (Pal.expandActiveWidth activeVideoStart activeVideoEnd).2.2 =
      ((-(activeVideoEnd - activeVideoStart)) % 16).toNat ∧
    (Pal.expandActiveWidth activeVideoStart activeVideoEnd).2.2 ≤ 15 ∧
    (Pal.expandActiveWidth activeVideoStart activeVideoEnd).1 ≤
      activeVideoStart ∧
    activeVideoEnd ≤ (Pal.expandActiveWidth activeVideoStart activeVideoEnd).2.1 ∧
    (activeVideoStart - (Pal.expandActiveWidth activeVideoStart activeVideoEnd).1) +
        ((Pal.expandActiveWidth activeVideoStart activeVideoEnd).2.1 - activeVideoEnd) =
      ((Pal.expandActiveWidth activeVideoStart activeVideoEnd).2.2 : Int) ∧
    (16 : Int) ∣
      ((Pal.expandActiveWidth activeVideoStart activeVideoEnd).2.1 -
        (Pal.expandActiveWidth activeVideoStart activeVideoEnd).1) ∧
    ∀ m : Int, (16 : Int) ∣ m → activeVideoEnd - activeVideoStart ≤ m →
      (Pal.expandActiveWidth activeVideoStart activeVideoEnd).2.1 -
          (Pal.expandActiveWidth activeVideoStart activeVideoEnd).1 ≤ m := by
  have H : ∀ (n : Nat) (s e : Int), ((-(e - s)) % 16).toNat = n →
      (Pal.expandActiveWidth s e).2.1 - (Pal.expandActiveWidth s e).1 =
        (e - s) + (-(e - s)) % 16 ∧
      (Pal.expandActiveWidth s e).2.2 = ((-(e - s)) % 16).toNat ∧
      (Pal.expandActiveWidth s e).2.2 ≤ 15 ∧
      (Pal.expandActiveWidth s e).1 ≤ s ∧
      e ≤ (Pal.expandActiveWidth s e).2.1 ∧
      (s - (Pal.expandActiveWidth s e).1) +
          ((Pal.expandActiveWidth s e).2.1 - e) =
        ((Pal.expandActiveWidth s e).2.2 : Int) ∧
      (16 : Int) ∣
        ((Pal.expandActiveWidth s e).2.1 - (Pal.expandActiveWidth s e).1) ∧
      ∀ m : Int, (16 : Int) ∣ m → e - s ≤ m →
        (Pal.expandActiveWidth s e).2.1 - (Pal.expandActiveWidth s e).1 ≤ m := by
    intro n
    induction n using Nat.strong_induction_on with
    | _ n ih =>
      intro s e hn
      rw [Pal.expandActiveWidth]
      by_cases h16 : (e - s) % 16 = 0
      · simp only [if_pos h16]
        refine ⟨by omega, by omega, by omega, le_refl s, le_refl e, by omega,
          Int.dvd_of_emod_eq_zero h16, fun m _ hle => hle⟩
      · by_cases h2 : (e - s) % 2 = 0
        · simp only [if_neg h16, if_pos h2]
          have hdec : ((-(e + 1 - s)) % 16).toNat < n := by omega
          have hrec := ih _ hdec s (e + 1) rfl
          obtain ⟨H1, H2, H3, H4, H5, H6, H7, H8⟩ := hrec
          refine ⟨by omega, by omega, by omega, by omega, by omega, by omega,
            by exact H7, ?_⟩
          intro m hm hle
          have hm0 : m % 16 = 0 := Int.emod_eq_zero_of_dvd hm
          exact H8 m hm (by omega)
        · simp only [if_neg h16, if_neg h2]
          have hdec : ((-(e - (s - 1))) % 16).toNat < n := by omega
          have hrec := ih _ hdec (s - 1) e rfl
          obtain ⟨H1, H2, H3, H4, H5, H6, H7, H8⟩ := hrec
          refine ⟨by omega, by omega, by omega, by omega, by omega, by omega,
            by exact H7, ?_⟩
          intro m hm hle
          have hm0 : m % 16 = 0 := Int.emod_eq_zero_of_dvd hm
          exact H8 m hm (by omega)
  exact H _ activeVideoStart activeVideoEnd rfl

/-- Witness for C10: width 5 grows to 16 in 11 iterations. -/
theorem c10_witness :
    (Pal.expandActiveWidth 0 5).2.2 = ((-(5 - 0 : Int)) % 16).toNat ∧
    (Pal.expandActiveWidth 0 5).2.2 ≤ 15 ∧
    (16 : Int) ∣
      ((Pal.expandActiveWidth 0 5).2.1 - (Pal.expandActiveWidth 0 5).1) ∧
    (Pal.expandActiveWidth 0 5).2.1 - (Pal.expandActiveWidth 0 5).1 ≤ 16 :=
  ⟨(c10_theorem 0 5).2.1, (c10_theorem 0 5).2.2.1,
   (c10_theorem 0 5).2.2.2.2.2.2.1,
   (c10_theorem 0 5).2.2.2.2.2.2.2 16 ⟨1, by decide⟩ (by decide)⟩

namespace Pal

lemma foldl_append_flatten {α β : Type} (f : α → List β) :
    ∀ (l : List α) (init : List β),
      l.foldl (fun acc x => acc ++ f x) init = init ++ (l.map f).flatten := by
  intro l
  induction l with
  | nil => simp
  | cons a l ih => intro init; simp [ih, List.append_assoc]

lemma foldl_append_const {α β : Type} (b : List β) :
    ∀ (l : List α) (init : List β),
      l.foldl (fun acc _ => acc ++ b) init =
        init ++ (List.replicate l.length b).flatten := by
  intro l
  induction l with
  | nil => simp
  | cons a l ih =>
    intro init
    simp [ih, List.append_assoc, List.replicate_succ]

end Pal

/-- **C9** (confirmed): under the geometry invariants `configure` establishes
(non-negative, ordered active bands that fit the frame buffer), the
post-processed RGB output is exactly 576 scan lines, each exactly the active
column span (`(activeVideoEnd - activeVideoStart) * 6` bytes):
`576 - (lastActiveScanLine - firstActiveScanLine)` zero-filled blank lines
followed by the active span of each in-band scan line in row order, the
inactive margins discarded. -/
theorem c9_theorem (config : Pal.Configuration) (outputData : List Nat)
    (h0 : 0 ≤ config.videoParameters.activeVideoStart)
    (h1 : config.videoParameters.activeVideoStart ≤
      config.videoParameters.activeVideoEnd)
    (h2 : config.videoParameters.activeVideoEnd ≤
      config.videoParameters.fieldWidth)
    (h3 : 0 ≤ config.firstActiveScanLine)
    (h4 : config.firstActiveScanLine ≤ config.lastActiveScanLine)
    (h5 : config.lastActiveScanLine - config.firstActiveScanLine ≤ 576)
    (h6 : config.lastActiveScanLine.toNat *
        config.videoParameters.fieldWidth.toNat * 6 ≤ outputData.length) :
    ∃ lines : List (List Nat),
      Pal.postprocessFrame config outputData = lines.flatten ∧
      lines.length = 576 ∧
      (∀ l ∈ lines,
        l.length = (config.videoParameters.activeVideoEnd.toNat -
          config.videoParameters.activeVideoStart.toNat) * 6) ∧
      lines =
        List.replicate
          (576 - (config.lastActiveScanLine.toNat -
            config.firstActiveScanLine.toNat))
          (List.replicate ((config.videoParameters.activeVideoEnd.toNat -
            config.videoParameters.activeVideoStart.toNat) * 6) 0) ++
        (List.range (config.lastActiveScanLine.toNat -
            config.firstActiveScanLine.toNat)).map
          (fun i => Pal.mid outputData
            (((config.firstActiveScanLine.toNat + i) *
                config.videoParameters.fieldWidth.toNat +
              config.videoParameters.activeVideoStart.toNat) * 6)
            ((config.videoParameters.activeVideoEnd.toNat -
              config.videoParameters.activeVideoStart.toNat) * 6)) ∧
      (Pal.postprocessFrame config outputData).length =
        576 * ((config.videoParameters.activeVideoEnd.toNat -
          config.videoParameters.activeVideoStart.toNat) * 6) := by
  obtain ⟨⟨fw, fh, cbs, avs, ave, pal⟩, frameH, fas, las⟩ := config
  dsimp only at h0 h1 h2 h3 h4 h5 h6 ⊢
  have hflat : Pal.postprocessFrame ⟨⟨fw, fh, cbs, avs, ave, pal⟩, frameH, fas, las⟩ outputData =
      (List.replicate (576 - (las.toNat - fas.toNat))
          (List.replicate ((ave.toNat - avs.toNat) * 6) 0) ++
        (List.range (las.toNat - fas.toNat)).map
          (fun i => Pal.mid outputData
            (((fas.toNat + i) * fw.toNat + avs.toNat) * 6)
            ((ave.toNat - avs.toNat) * 6))).flatten := by
    unfold Pal.postprocessFrame
    dsimp only
    rw [Pal.foldl_append_const, Pal.foldl_append_flatten, List.length_range]
    rw [show (576 - (las - fas)).toNat = 576 - (las.toNat - fas.toNat) from by
      omega]
    simp [List.flatten_append]
  have hmem : ∀ l ∈ (List.replicate (576 - (las.toNat - fas.toNat))
          (List.replicate ((ave.toNat - avs.toNat) * 6) 0) ++
        (List.range (las.toNat - fas.toNat)).map
          (fun i => Pal.mid outputData
            (((fas.toNat + i) * fw.toNat + avs.toNat) * 6)
            ((ave.toNat - avs.toNat) * 6))),
      l.length = (ave.toNat - avs.toNat) * 6 := by
    intro l hl
    rcases List.mem_append.mp hl with hb | hm
    · rw [List.eq_of_mem_replicate hb, List.length_replicate]
    · obtain ⟨i, hi, rfl⟩ := List.mem_map.mp hm
      have hilt : i < las.toNat - fas.toNat := List.mem_range.mp hi
      have hsle : avs.toNat ≤ ave.toNat := by omega
      have heW : ave.toNat ≤ fw.toNat := by omega
      have hfi : fas.toNat + i + 1 ≤ las.toNat := by omega
      have k1 : (fas.toNat + i) * fw.toNat + ave.toNat ≤ las.toNat * fw.toNat := by
        calc (fas.toNat + i) * fw.toNat + ave.toNat ≤
            (fas.toNat + i) * fw.toNat + fw.toNat := by omega
          _ = (fas.toNat + i + 1) * fw.toNat := by ring
          _ ≤ las.toNat * fw.toNat := Nat.mul_le_mul_right fw.toNat hfi
      have key : ((fas.toNat + i) * fw.toNat + avs.toNat) * 6 +
          (ave.toNat - avs.toNat) * 6 ≤ outputData.length := by
        have e1 : ((fas.toNat + i) * fw.toNat + avs.toNat) * 6 +
            (ave.toNat - avs.toNat) * 6 =
            ((fas.toNat + i) * fw.toNat + ave.toNat) * 6 := by
          rw [← Nat.add_mul]
          congr 1
          omega
        rw [e1]
        calc ((fas.toNat + i) * fw.toNat + ave.toNat) * 6 ≤
            las.toNat * fw.toNat * 6 := Nat.mul_le_mul_right 6 k1
          _ ≤ outputData.length := h6
      unfold Pal.mid
      rw [List.length_take, List.length_drop]
      omega
  have hcnt : (List.replicate (576 - (las.toNat - fas.toNat))
          (List.replicate ((ave.toNat - avs.toNat) * 6) 0) ++
        (List.range (las.toNat - fas.toNat)).map
          (fun i => Pal.mid outputData
            (((fas.toNat + i) * fw.toNat + avs.toNat) * 6)
            ((ave.toNat - avs.toNat) * 6))).length = 576 := by
    rw [List.length_append, List.length_replicate, List.length_map,
      List.length_range]
    omega
  refine ⟨_, hflat, hcnt, hmem, rfl, ?_⟩
  rw [hflat, List.length_flatten]
  have hmap : (List.replicate (576 - (las.toNat - fas.toNat))
          (List.replicate ((ave.toNat - avs.toNat) * 6) 0) ++
        (List.range (las.toNat - fas.toNat)).map
          (fun i => Pal.mid outputData
            (((fas.toNat + i) * fw.toNat + avs.toNat) * 6)
            ((ave.toNat - avs.toNat) * 6))).map List.length =
      List.replicate 576 ((ave.toNat - avs.toNat) * 6) := by
    apply List.eq_replicate_iff.mpr
    constructor
    · rw [List.length_map, hcnt]
    · intro b hb
      obtain ⟨l, hl, rfl⟩ := List.mem_map.mp hb
      exact hmem l hl
  rw [hmap, List.sum_replicate, smul_eq_mul]
/-- Witness for C9. -/
theorem c9_witness :
    ∃ lines : List (List Nat),
      Pal.postprocessFrame ⟨⟨2, 1, 0, 0, 1, true⟩, 1, 0, 1⟩
          (List.replicate 12 7) = lines.flatten ∧
      lines.length = 576 ∧
      (∀ l ∈ lines, l.length = 6) ∧
      lines = List.replicate 575 (List.replicate 6 0) ++
        [Pal.mid (List.replicate 12 7) 0 6] ∧
      (Pal.postprocessFrame ⟨⟨2, 1, 0, 0, 1, true⟩, 1, 0, 1⟩
          (List.replicate 12 7)).length = 3456 :=
  c9_theorem ⟨⟨2, 1, 0, 0, 1, true⟩, 1, 0, 1⟩ (List.replicate 12 7)
    (by decide) (by decide) (by decide) (by decide) (by decide) (by decide)
    (by decide)

end VhsDecode
